import Mathlib

/-!
Shallow embedding of the VoicebotV2 chat relay.

The repository holds three iterations of the same Express handler for
POST /api/chat:
* `app.js` — multer fileFilter restricting upload types, winston logging,
  response-time and token-usage instrumentation (`apiChat`,
  `processQueryAndRespond`);
* a companion iteration with logging and an unsupported-type 400 branch whose
  message names the four accepted types (`apiChat_log`,
  `processQueryAndRespond_log`);
* a minimal iteration with a short 400 message, a choices-length check, and a
  single catch branch (`apiChat_min`, `processQueryAndRespond_min`).

External collaborators — csv-parser, JSON.parse composed with JSON.stringify,
the ExcelJS row reader, axios.post and Date.now — are modelled as oracles
supplied through two environment records (`ParseEnv`, `CallEnv`); the handler
logic itself is translated branch by branch from the source.  A handler run is
observed through `HandlerResult`: the ordered HTTP responses it sends, the
outbound completion requests it issues, and the number of fs.unlink calls it
performs on the temporary upload.
-/

namespace VoicebotV2

/-- A data row produced by csv-parser: an object of header/value string pairs. -/
abbrev Rec := List (String × String)

/-- One role-tagged outbound chat message. -/
structure ChatMsg where
  role : String
  content : String
deriving DecidableEq

/-- The body of the outbound completions request: a fixed model identifier and
the assembled messages. -/
structure CompletionRequest where
  model : String
  messages : List ChatMsg
deriving DecidableEq

/-- The message object of a returned choice; its content may be absent. -/
structure ChoiceMessage where
  content : Option String
deriving DecidableEq

/-- One element of response.data.choices; its message object may be absent. -/
structure Choice where
  message : Option ChoiceMessage
deriving DecidableEq

/-- response.data.usage of a successful completions call. -/
structure Usage where
  total_tokens : Nat
deriving DecidableEq

/-- response.data of a successful completions call. -/
structure CompletionData where
  choices : List Choice
  usage : Option Usage
deriving DecidableEq

/-- Outcome of axios.post: success with data, an error carrying a remote
response (error.response, with its data payload and the axios error.message),
an error with a request but no response (error.request), or any other thrown
error. -/
inductive AxiosOutcome where
  | success (data : CompletionData)
  | errorResponse (payload : String) (msg : String)
  | errorRequest (msg : String)
  | errorOther (msg : String)
deriving DecidableEq

/-- The details field of a JSON error body: either a remote payload forwarded
as-is (error.response.data) or an exception text (error.message). -/
inductive ErrDetails where
  | payload (p : String)
  | text (s : String)
deriving DecidableEq

/-- Response bodies the handlers send: res.send of plain text, res.json of a
success object (whose response field may be absent when the value was
undefined), or res.json of an error object. -/
inductive Body where
  | text (s : String)
  | success (response : Option String)
  | error (message : String) (details : Option ErrDetails)
deriving DecidableEq

/-- One HTTP response: status code and body. -/
structure HttpResponse where
  status : Nat
  body : Body
deriving DecidableEq

/-- Observable effects of one handler run. -/
structure HandlerResult where
  responses : List HttpResponse
  completionCalls : List CompletionRequest
  unlinks : Nat
deriving DecidableEq

/-- An uploaded file as multer presents it: original name (used only for
logging), the staged bytes, and the declared MIME type. -/
structure UploadedFile where
  originalname : String
  bytes : String
  mimetype : String
deriving DecidableEq

/-- A POST /api/chat request: the query field (absent when not sent) and the
optional uploaded file. -/
structure Request where
  query : Option String
  file : Option UploadedFile
deriving DecidableEq

/-- Oracles for the external file readers: the csv-parser stream outcome on
given bytes, the JSON.parse-then-JSON.stringify composite (none when
JSON.parse throws), and the ExcelJS first-sheet reader returning each
row.values already serialized (error when the workbook read throws). -/
structure ParseEnv where
  csvParse : String → Except String (List Rec)
  jsonReserialize : String → Option String
  xlsxRows : String → Except String (List String)

/-- Oracles for the outbound call: the axios.post outcome for a given request
body, and the two Date.now readings taken before and after the call. -/
structure CallEnv where
  completion : CompletionRequest → AxiosOutcome
  now1 : Nat
  now2 : Nat

/-- JS disjunction on an optional string: undefined and the empty string are
falsy, so both fall through to the default. -/
def jsOrStr (o : Option String) (d : String) : String :=
  match o with
  | none => d
  | some s => if s = "" then d else s

/-- The default instruction substituted for a falsy query. -/
def defaultQueryPrompt : String := "Please summarize the file content."

/-- Declared MIME type of .xlsx spreadsheets. -/
def xlsxMime : String :=
  "application/vnd.openxmlformats-officedocument.spreadsheetml.sheet"

/-- The allowed types listed in the multer fileFilter of app.js. -/
def allowedTypes : List String :=
  ["text/csv", "text/plain", "application/json", xlsxMime]

/-- Model of the character escaping JSON.stringify applies inside strings. -/
def jsonEscapeChar (c : Char) : String :=
  if c = '\"' then "\\\""
  else if c = '\\' then "\\\\"
  else if c = '\n' then "\\n"
  else if c = '\r' then "\\r"
  else if c = '\t' then "\\t"
  else String.singleton c

/-- Model of JSON.stringify on a string value. -/
def jsonQuote (s : String) : String :=
  "\"" ++ String.join (s.toList.map jsonEscapeChar) ++ "\""

/-- Model of JSON.stringify on one csv-parser record (an object whose values
are strings). -/
def recToJsonStr (r : Rec) : String :=
  "\x7b" ++ String.intercalate "," (r.map (fun kv => jsonQuote kv.1 ++ ":" ++ jsonQuote kv.2)) ++ "\x7d"

/-- JSON.stringify of the csv dataArray. -/
def stringifyRecs (rs : List Rec) : String :=
  "[" ++ String.intercalate "," (rs.map recToJsonStr) ++ "]"

/-- JSON.stringify of the ExcelJS rows array, given each row.values already
serialized by the oracle. -/
def stringifyRows (rows : List String) : String :=
  "[" ++ String.intercalate "," rows ++ "]"

/-- The MIME dispatch inside the try block, shared verbatim by all three
handlers: some (.ok c) when a branch set fileContent to c, some (.error ())
when the matched branch threw (csv stream error, JSON.parse failure, ExcelJS
read failure), none when no branch matched the declared type. -/
def normalizeCore (penv : ParseEnv) (bytes mt : String) : Option (Except Unit String) :=
  if mt = "text/csv" then
    some (match penv.csvParse bytes with
      | .ok recs => .ok (stringifyRecs recs)
      | .error _ => .error ())
  else if mt = "text/plain" then
    some (.ok bytes)
  else if mt = "application/json" then
    some (match penv.jsonReserialize bytes with
      | some s => .ok s
      | none => .error ())
  else if mt = xlsxMime then
    some (match penv.xlsxRows bytes with
      | .ok rows => .ok (stringifyRows rows)
      | .error _ => .error ())
  else none

/-- Message assembly in processQueryAndRespond: the query entry (with the JS
falsy default) always, the file entry only when fileContent is truthy. -/
def buildMessages (query fileContent : Option String) : List ChatMsg :=
  match fileContent with
  | some fc =>
      if fc = "" then [ChatMsg.mk "user" (jsOrStr query defaultQueryPrompt)]
      else [ChatMsg.mk "user" (jsOrStr query defaultQueryPrompt),
            ChatMsg.mk "user" ("File content: " ++ fc)]
  | none => [ChatMsg.mk "user" (jsOrStr query defaultQueryPrompt)]

/-- The outbound request body axios.post sends. -/
def chatRequest (query fileContent : Option String) : CompletionRequest :=
  ⟨"gpt-3.5-turbo", buildMessages query fileContent⟩

/-- Modelled text of the runtime TypeError thrown when response.data.usage is
absent and total_tokens is read from it (app.js success path). -/
def usageTypeErrorMsg : String :=
  "Cannot read properties of undefined (reading total_tokens)"

/-- Modelled text of the runtime TypeError thrown in the minimal iteration
when choices[0].message is absent and content is read from it. -/
def contentTypeErrorMsg : String :=
  "Cannot read properties of undefined (reading content)"

/-- processQueryAndRespond of app.js: builds the messages, issues the call,
reads usage.total_tokens then the first choice text, and appends the
response-time and token footer; its catch distinguishes error.response,
error.request and other errors. -/
def processQueryAndRespond (cenv : CallEnv) (query fileContent : Option String) : HandlerResult :=
  match cenv.completion (chatRequest query fileContent) with
  | .success data =>
    match data.usage with
    | none =>
        ⟨[⟨500, .error "Error processing request" (some (.text usageTypeErrorMsg))⟩],
         [chatRequest query fileContent], 0⟩
    | some u =>
        ⟨[⟨200, .success (some
            (jsOrStr ((data.choices.head?.bind Choice.message).bind ChoiceMessage.content)
                 "No response from AI"
             ++ "\n\n---\nResponse time: "
             ++ toString ((cenv.now2 : Int) - (cenv.now1 : Int))
             ++ " ms | Tokens used: " ++ toString u.total_tokens))⟩],
         [chatRequest query fileContent], 0⟩
  | .errorResponse payload _ =>
      ⟨[⟨500, .error "Error fetching response from OpenAI" (some (.payload payload))⟩],
       [chatRequest query fileContent], 0⟩
  | .errorRequest _ =>
      ⟨[⟨500, .error "Network error: No response received from OpenAI" none⟩],
       [chatRequest query fileContent], 0⟩
  | .errorOther msg =>
      ⟨[⟨500, .error "Error processing request" (some (.text msg))⟩],
       [chatRequest query fileContent], 0⟩

/-- processQueryAndRespond of the logging iteration: same as app.js but with
no timing or token read, returning the extracted text directly. -/
def processQueryAndRespond_log (cenv : CallEnv) (query fileContent : Option String) : HandlerResult :=
  match cenv.completion (chatRequest query fileContent) with
  | .success data =>
      ⟨[⟨200, .success (some
          (jsOrStr ((data.choices.head?.bind Choice.message).bind ChoiceMessage.content)
               "No response from AI"))⟩],
       [chatRequest query fileContent], 0⟩
  | .errorResponse payload _ =>
      ⟨[⟨500, .error "Error fetching response from OpenAI" (some (.payload payload))⟩],
       [chatRequest query fileContent], 0⟩
  | .errorRequest _ =>
      ⟨[⟨500, .error "Network error: No response received from OpenAI" none⟩],
       [chatRequest query fileContent], 0⟩
  | .errorOther msg =>
      ⟨[⟨500, .error "Error processing request" (some (.text msg))⟩],
       [chatRequest query fileContent], 0⟩

/-- processQueryAndRespond of the minimal iteration: length check on choices,
then an unguarded read of choices[0].message.content (a TypeError when the
message object is absent lands in the catch), and a single catch branch that
always sends the generic body with error.message. -/
def processQueryAndRespond_min (cenv : CallEnv) (query fileContent : Option String) : HandlerResult :=
  match cenv.completion (chatRequest query fileContent) with
  | .success data =>
    match data.choices with
    | [] =>
        ⟨[⟨200, .success (some "No valid response from the AI.")⟩],
         [chatRequest query fileContent], 0⟩
    | c :: _ =>
      match c.message with
      | none =>
          ⟨[⟨500, .error "Error processing request" (some (.text contentTypeErrorMsg))⟩],
           [chatRequest query fileContent], 0⟩
      | some m =>
          ⟨[⟨200, .success m.content⟩], [chatRequest query fileContent], 0⟩
  | .errorResponse _ msg =>
      ⟨[⟨500, .error "Error processing request" (some (.text msg))⟩],
       [chatRequest query fileContent], 0⟩
  | .errorRequest msg =>
      ⟨[⟨500, .error "Error processing request" (some (.text msg))⟩],
       [chatRequest query fileContent], 0⟩
  | .errorOther msg =>
      ⟨[⟨500, .error "Error processing request" (some (.text msg))⟩],
       [chatRequest query fileContent], 0⟩

/-- The fs.unlink performed on the staged upload after successful
normalization, counted on top of the remaining effects. -/
def afterUnlink (r : HandlerResult) : HandlerResult :=
  ⟨r.responses, r.completionCalls, r.unlinks + 1⟩

/-- The 400 message of the logging iteration and of the multer fileFilter. -/
def unsupportedMsgFull : String :=
  "Unsupported file type. Please upload a CSV, TXT, JSON, or XLSX file."

/-- POST /api/chat handler of app.js.  There is no unsupported-type branch
(the fileFilter runs first), so an unmatched type leaves fileContent as the
empty string; the catch around the file branch sends a 500 and performs no
unlink. -/
def apiChat (penv : ParseEnv) (cenv : CallEnv) (req : Request) : HandlerResult :=
  match req.file with
  | none => processQueryAndRespond cenv req.query none
  | some f =>
    match normalizeCore penv f.bytes f.mimetype with
    | some (.error _) => ⟨[⟨500, .text "Error processing file"⟩], [], 0⟩
    | some (.ok fc) => afterUnlink (processQueryAndRespond cenv req.query (some fc))
    | none => afterUnlink (processQueryAndRespond cenv req.query (some ""))

/-- POST /api/chat handler of the logging iteration: an unsupported declared
type unlinks the upload and returns a 400 naming the accepted types; the
catch sends a 500 and performs no unlink. -/
def apiChat_log (penv : ParseEnv) (cenv : CallEnv) (req : Request) : HandlerResult :=
  match req.file with
  | none => processQueryAndRespond_log cenv req.query none
  | some f =>
    match normalizeCore penv f.bytes f.mimetype with
    | some (.error _) => ⟨[⟨500, .text "Error processing file"⟩], [], 0⟩
    | some (.ok fc) => afterUnlink (processQueryAndRespond_log cenv req.query (some fc))
    | none => ⟨[⟨400, .text unsupportedMsgFull⟩], [], 1⟩

/-- POST /api/chat handler of the minimal iteration: like the logging one but
the 400 body is the short message that does not name the accepted types. -/
def apiChat_min (penv : ParseEnv) (cenv : CallEnv) (req : Request) : HandlerResult :=
  match req.file with
  | none => processQueryAndRespond_min cenv req.query none
  | some f =>
    match normalizeCore penv f.bytes f.mimetype with
    | some (.error _) => ⟨[⟨500, .text "Error processing file"⟩], [], 0⟩
    | some (.ok fc) => afterUnlink (processQueryAndRespond_min cenv req.query (some fc))
    | none => ⟨[⟨400, .text "Unsupported file type."⟩], [], 1⟩

/-- Outcome of a request at the app.js route: either the handler ran, or the
multer fileFilter rejected the upload with an Error before the handler, which
Express surfaces as a framework-level error response. -/
inductive UploadOutcome where
  | accepted (r : HandlerResult)
  | rejected (errMsg : String)
deriving DecidableEq

/-- The multer fileFilter of app.js. -/
def fileFilterAccepts (mt : String) : Bool :=
  allowedTypes.contains mt

/-- The full app.js route: upload.single runs the fileFilter on the uploaded
file before the handler. -/
def apiChatWithFilter (penv : ParseEnv) (cenv : CallEnv) (req : Request) : UploadOutcome :=
  match req.file with
  | some f =>
      if fileFilterAccepts f.mimetype then .accepted (apiChat penv cenv req)
      else .rejected unsupportedMsgFull
  | none => .accepted (apiChat penv cenv req)

/-- Parse oracle where JSON parsing fails on every input. -/
def penvBadJson : ParseEnv :=
  ⟨fun _ => .ok [], fun _ => none, fun _ => .ok []⟩

/-- Parse oracle where every reader succeeds and yields no rows. -/
def penvEmptyRows : ParseEnv :=
  ⟨fun _ => .ok [], fun _ => some "null", fun _ => .ok []⟩

/-- Parse oracle where the csv stream errors. -/
def penvCsvError : ParseEnv :=
  ⟨fun _ => .error "stream error", fun _ => some "null", fun _ => .ok []⟩

/-- Call oracle answering every completion with a network failure. -/
def cenvNet : CallEnv :=
  ⟨fun _ => .errorRequest "socket hang up", 0, 0⟩

/-- Call oracle answering with a remote error payload. -/
def cenvRemoteErr : CallEnv :=
  ⟨fun _ => .errorResponse "upstream details" "Request failed with status code 500", 0, 0⟩

/-- Call oracle answering with a local non-axios failure. -/
def cenvOtherErr : CallEnv :=
  ⟨fun _ => .errorOther "boom", 0, 0⟩

/-- Call oracle answering with one full choice and a usage block. -/
def cenvOk : CallEnv :=
  ⟨fun _ => .success ⟨[⟨some ⟨some "hello"⟩⟩], some ⟨42⟩⟩, 100, 250⟩

/-- Call oracle whose successful answer has a first choice with no message
object. -/
def cenvNoMessage : CallEnv :=
  ⟨fun _ => .success ⟨[⟨none⟩], some ⟨7⟩⟩, 0, 0⟩

/-- Call oracle whose successful answer carries the empty string as the first
choice text. -/
def cenvEmptyText : CallEnv :=
  ⟨fun _ => .success ⟨[⟨some ⟨some ""⟩⟩], some ⟨7⟩⟩, 0, 0⟩

/-- Call oracle whose successful answer has an empty choices array. -/
def cenvNoChoices : CallEnv :=
  ⟨fun _ => .success ⟨[], some ⟨7⟩⟩, 0, 0⟩

/-- Every run of the app.js processQueryAndRespond issues exactly the one
assembled completion request. -/
theorem processQueryAndRespond_calls (cenv : CallEnv) (q fc : Option String) :
    (processQueryAndRespond cenv q fc).completionCalls = [chatRequest q fc] := by
  unfold processQueryAndRespond
  cases cenv.completion (chatRequest q fc) with
  | success data => obtain ⟨cs, u⟩ := data; cases u <;> rfl
  | errorResponse p m => rfl
  | errorRequest m => rfl
  | errorOther m => rfl

/-- Every run of the app.js processQueryAndRespond sends exactly one response. -/
theorem processQueryAndRespond_one_response (cenv : CallEnv) (q fc : Option String) :
    (processQueryAndRespond cenv q fc).responses.length = 1 := by
  unfold processQueryAndRespond
  cases cenv.completion (chatRequest q fc) with
  | success data => obtain ⟨cs, u⟩ := data; cases u <;> rfl
  | errorResponse p m => rfl
  | errorRequest m => rfl
  | errorOther m => rfl

/-- The assembled message list is the query entry followed by nothing or by a
single file-content entry. -/
theorem buildMessages_shape (q fc : Option String) :
    ∃ rest, buildMessages q fc = ChatMsg.mk "user" (jsOrStr q defaultQueryPrompt) :: rest ∧
      (rest = [] ∨ ∃ s, rest = [ChatMsg.mk "user" ("File content: " ++ s)]) := by
  cases fc with
  | none => exact ⟨[], rfl, Or.inl rfl⟩
  | some s =>
    by_cases h : s = ""
    · refine ⟨[], ?_, Or.inl rfl⟩
      simp [buildMessages, h]
    · refine ⟨[ChatMsg.mk "user" ("File content: " ++ s)], ?_, Or.inr ⟨s, rfl⟩⟩
      simp [buildMessages, h]

/-- The app.js handler issues either no completion call or exactly the one
assembled from the request query and some file content. -/
theorem apiChat_calls_cases (penv : ParseEnv) (cenv : CallEnv) (req : Request) :
    (apiChat penv cenv req).completionCalls = [] ∨
    ∃ fc, (apiChat penv cenv req).completionCalls = [chatRequest req.query fc] := by
  obtain ⟨q, file⟩ := req
  cases file with
  | none => exact Or.inr ⟨none, processQueryAndRespond_calls cenv q none⟩
  | some f =>
    cases hn : normalizeCore penv f.bytes f.mimetype with
    | none =>
        exact Or.inr ⟨some "", by
          simp [apiChat, hn, afterUnlink, processQueryAndRespond_calls]⟩
    | some e =>
      cases e with
      | ok fc =>
          exact Or.inr ⟨some fc, by
            simp [apiChat, hn, afterUnlink, processQueryAndRespond_calls]⟩
      | error u =>
          exact Or.inl (by simp [apiChat, hn])

/-- A csv stream with no data rows normalizes to the empty-array string. -/
theorem normalizeCore_csv_empty (penv : ParseEnv) (bytes : String)
    (h : penv.csvParse bytes = .ok []) :
    normalizeCore penv bytes "text/csv" = some (.ok "[]") := by
  have hstep : normalizeCore penv bytes "text/csv" =
      some (match penv.csvParse bytes with
        | .ok recs => Except.ok (stringifyRecs recs)
        | .error _ => Except.error ()) := rfl
  rw [hstep, h]
  rfl

/-- A first sheet with no rows normalizes to the empty-array string. -/
theorem normalizeCore_xlsx_empty (penv : ParseEnv) (bytes : String)
    (h : penv.xlsxRows bytes = .ok []) :
    normalizeCore penv bytes xlsxMime = some (.ok "[]") := by
  have hstep : normalizeCore penv bytes xlsxMime =
      some (match penv.xlsxRows bytes with
        | .ok rows => Except.ok (stringifyRows rows)
        | .error _ => Except.error ()) := rfl
  rw [hstep, h]
  rfl

/-- Claim C1 (code bug evaluation): on the parse-failure exit path the app.js
handler — and likewise the logging iteration — sends the 500 file-processing
body but performs zero fs.unlink calls, so the temporary upload is left on
storage instead of being deleted exactly once.  Shown on a request carrying a
file declared application/json whose bytes JSON.parse rejects. -/
theorem c1_malformed_json_leaves_temp_file :
    (apiChat penvBadJson cenvNet
        ⟨some "summarize", some ⟨"data.json", "oops", "application/json"⟩⟩).unlinks = 0 ∧
    (apiChat penvBadJson cenvNet
        ⟨some "summarize", some ⟨"data.json", "oops", "application/json"⟩⟩).responses =
      [⟨500, Body.text "Error processing file"⟩] ∧
    (apiChat_log penvBadJson cenvNet
        ⟨some "summarize", some ⟨"data.json", "oops", "application/json"⟩⟩).unlinks = 0 :=
  ⟨by decide, by decide, by decide⟩

/-- Claim C2 counterexample: a request whose csv stream errors reaches the
handler (text/csv passes the fileFilter) yet produces zero outbound
completion calls, so the claimed "exactly one outbound completion call per
request" is false; one response is still sent. -/
theorem c2_zero_completion_calls_on_parse_failure :
    (apiChat penvCsvError cenvOk ⟨some "q", some ⟨"a.csv", "x,y", "text/csv"⟩⟩).completionCalls.length = 0 ∧
    (apiChat penvCsvError cenvOk ⟨some "q", some ⟨"a.csv", "x,y", "text/csv"⟩⟩).responses.length = 1 :=
  ⟨by decide, by decide⟩

/-- Claim C2 (amended): every request to the app.js handler sends exactly one
HTTP response body and makes at most one outbound completion call — so never
both a success and an error body, and never a duplicated call. -/
theorem c2_one_response_at_most_one_call (penv : ParseEnv) (cenv : CallEnv) (req : Request) :
    (apiChat penv cenv req).responses.length = 1 ∧
    (apiChat penv cenv req).completionCalls.length ≤ 1 := by
  obtain ⟨q, file⟩ := req
  have hp : ∀ fc, (processQueryAndRespond cenv q fc).responses.length = 1 ∧
      (processQueryAndRespond cenv q fc).completionCalls.length ≤ 1 := by
    intro fc
    refine ⟨processQueryAndRespond_one_response cenv q fc, ?_⟩
    rw [processQueryAndRespond_calls]
    exact Nat.le_refl 1
  cases file with
  | none => exact hp none
  | some f =>
    cases hn : normalizeCore penv f.bytes f.mimetype with
    | none => simpa [apiChat, hn, afterUnlink] using hp (some "")
    | some e =>
      cases e with
      | ok fc => simpa [apiChat, hn, afterUnlink] using hp (some fc)
      | error u => exact ⟨by simp [apiChat, hn], by simp [apiChat, hn]⟩

/-- Claim C3 counterexample: in the minimal iteration an unsupported declared
type is answered with the 400 body "Unsupported file type." which does not
name the four accepted types (it does not even contain "CSV"). -/
theorem c3_min_iteration_message_omits_types :
    (apiChat_min penvEmptyRows cenvOk
        ⟨some "q", some ⟨"a.pdf", "x", "application/pdf"⟩⟩).responses =
      [⟨400, Body.text "Unsupported file type."⟩] ∧
    ¬ ("CSV".toList <:+: ("Unsupported file type.").toList) :=
  ⟨by decide, by decide⟩

/-- Claim C3 (amended): for a declared MIME type outside the four accepted
ones, the logging iteration responds 400 with the plain-text message naming
the four accepted types and never calls the completion endpoint; the minimal
iteration responds 400 with the short message "Unsupported file type." and
never calls the completion endpoint; and in app.js the multer fileFilter
rejects the upload before the handler runs, so the completion endpoint is
never called there either. -/
theorem c3_unsupported_type_rejection (penv : ParseEnv) (cenv : CallEnv)
    (q : Option String) (f : UploadedFile) (h : f.mimetype ∉ allowedTypes) :
    apiChat_log penv cenv ⟨q, some f⟩ =
      ⟨[⟨400, Body.text unsupportedMsgFull⟩], [], 1⟩ ∧
    apiChat_min penv cenv ⟨q, some f⟩ =
      ⟨[⟨400, Body.text "Unsupported file type."⟩], [], 1⟩ ∧
    apiChatWithFilter penv cenv ⟨q, some f⟩ = .rejected unsupportedMsgFull := by
  simp only [allowedTypes, List.mem_cons, List.not_mem_nil, or_false, not_or] at h
  obtain ⟨h1, h2, h3, h4⟩ := h
  have hn : normalizeCore penv f.bytes f.mimetype = none := by
    simp [normalizeCore, h1, h2, h3, h4]
  have hf : fileFilterAccepts f.mimetype = false := by
    simp [fileFilterAccepts, allowedTypes, h1, h2, h3, h4]
  exact ⟨by simp [apiChat_log, hn], by simp [apiChat_min, hn],
         by simp [apiChatWithFilter, hf]⟩

/-- Claim C3 witness: instantiated at a pdf upload. -/
theorem c3_unsupported_type_rejection_witness :
    apiChat_log penvEmptyRows cenvOk ⟨some "q", some ⟨"a.pdf", "x", "application/pdf"⟩⟩ =
      ⟨[⟨400, Body.text unsupportedMsgFull⟩], [], 1⟩ :=
  (c3_unsupported_type_rejection penvEmptyRows cenvOk (some "q")
    ⟨"a.pdf", "x", "application/pdf"⟩ (by decide)).1

/-- Claim C4 counterexample: in the minimal iteration a completion failure
that carries a remote error payload is answered with the single generic body
whose details field holds the axios error text, not the remote payload — the
payload is not forwarded verbatim. -/
theorem c4_min_iteration_drops_remote_payload :
    (processQueryAndRespond_min cenvRemoteErr (some "q") none).responses =
      [⟨500, Body.error "Error processing request"
          (some (.text "Request failed with status code 500"))⟩] ∧
    ErrDetails.text "Request failed with status code 500" ≠
      ErrDetails.payload "upstream details" :=
  ⟨by decide, by decide⟩

/-- Claim C4 (amended): in the iterations with the three-branch catch (app.js
and the logging iteration), every completion failure maps to HTTP 500 with a
JSON body distinguishing the three cases — a remote error payload is
forwarded verbatim in the details field, a no-response failure yields the
generic network-error message, and any other local exception yields the
generic processing-error message carrying the exception text; in the minimal
iteration every failure, including one with a remote payload, yields the
single generic processing-error body carrying the error text. -/
theorem c4_failure_taxonomy (cenv : CallEnv) (q fc : Option String) (payload msg : String) :
    (cenv.completion (chatRequest q fc) = .errorResponse payload msg →
       (processQueryAndRespond cenv q fc).responses =
         [⟨500, Body.error "Error fetching response from OpenAI" (some (.payload payload))⟩]) ∧
    (cenv.completion (chatRequest q fc) = .errorRequest msg →
       (processQueryAndRespond cenv q fc).responses =
         [⟨500, Body.error "Network error: No response received from OpenAI" none⟩]) ∧
    (cenv.completion (chatRequest q fc) = .errorOther msg →
       (processQueryAndRespond cenv q fc).responses =
         [⟨500, Body.error "Error processing request" (some (.text msg))⟩]) ∧
    (cenv.completion (chatRequest q fc) = .errorResponse payload msg →
       (processQueryAndRespond_log cenv q fc).responses =
         [⟨500, Body.error "Error fetching response from OpenAI" (some (.payload payload))⟩]) ∧
    (cenv.completion (chatRequest q fc) = .errorResponse payload msg →
       (processQueryAndRespond_min cenv q fc).responses =
         [⟨500, Body.error "Error processing request" (some (.text msg))⟩]) := by
  refine ⟨?_, ?_, ?_, ?_, ?_⟩ <;> intro h <;>
    simp [processQueryAndRespond, processQueryAndRespond_log, processQueryAndRespond_min, h]

/-- Claim C4 witness: the three app.js cases instantiated at concrete call
environments. -/
theorem c4_failure_taxonomy_witness :
    (processQueryAndRespond cenvRemoteErr (some "q") none).responses =
      [⟨500, Body.error "Error fetching response from OpenAI"
          (some (.payload "upstream details"))⟩] ∧
    (processQueryAndRespond cenvNet (some "q") none).responses =
      [⟨500, Body.error "Network error: No response received from OpenAI" none⟩] ∧
    (processQueryAndRespond cenvOtherErr (some "q") none).responses =
      [⟨500, Body.error "Error processing request" (some (.text "boom"))⟩] :=
  ⟨(c4_failure_taxonomy cenvRemoteErr (some "q") none "upstream details"
      "Request failed with status code 500").1 rfl,
   (c4_failure_taxonomy cenvNet (some "q") none "" "socket hang up").2.1 rfl,
   (c4_failure_taxonomy cenvOtherErr (some "q") none "" "boom").2.2.1 rfl⟩

/-- Claim C5: every completion call issued by the app.js handler carries as
first entry the caller query (or the default instruction when the query is
falsy) and at most one further entry of the form "File content: " plus some
string; when the file normalizes to content fc the single call is exactly the
one assembled from the query and fc; a request with no file is independent of
the parse oracles (the normalizer is never run) and with a non-empty query
sends exactly the one query message. -/
theorem c5_prompt_messages_shape (penv penv' : ParseEnv) (cenv : CallEnv)
    (req : Request) (q : String) (hq : q ≠ "") :
    (∀ c ∈ (apiChat penv cenv req).completionCalls,
       ∃ rest, c.messages = ChatMsg.mk "user" (jsOrStr req.query defaultQueryPrompt) :: rest ∧
         (rest = [] ∨ ∃ fc, rest = [ChatMsg.mk "user" ("File content: " ++ fc)])) ∧
    (∀ f fc, req.file = some f → normalizeCore penv f.bytes f.mimetype = some (.ok fc) →
       (apiChat penv cenv req).completionCalls = [chatRequest req.query (some fc)]) ∧
    apiChat penv cenv ⟨some q, none⟩ = apiChat penv' cenv ⟨some q, none⟩ ∧
    (apiChat penv cenv ⟨some q, none⟩).completionCalls =
      [⟨"gpt-3.5-turbo", [ChatMsg.mk "user" q]⟩] := by
  refine ⟨?_, ?_, rfl, ?_⟩
  · intro c hc
    rcases apiChat_calls_cases penv cenv req with h | ⟨fc, h⟩
    · rw [h] at hc
      exact absurd hc (List.not_mem_nil c)
    · rw [h] at hc
      rcases List.mem_singleton.mp hc with rfl
      simpa [chatRequest] using buildMessages_shape req.query fc
  · intro f fc hf hn
    obtain ⟨q0, file⟩ := req
    simp only [Request.file] at hf
    subst hf
    simp [apiChat, hn, afterUnlink, processQueryAndRespond_calls]
  · rw [show apiChat penv cenv ⟨some q, none⟩ = processQueryAndRespond cenv (some q) none from rfl,
        processQueryAndRespond_calls]
    simp [chatRequest, buildMessages, jsOrStr, hq]

/-- Claim C5 witness: a request with no file field and a non-empty query
sends exactly one message. -/
theorem c5_prompt_messages_shape_witness :
    (apiChat penvEmptyRows cenvOk ⟨some "list the rows", none⟩).completionCalls =
      [⟨"gpt-3.5-turbo", [ChatMsg.mk "user" "list the rows"]⟩] :=
  (c5_prompt_messages_shape penvEmptyRows penvCsvError cenvOk
    ⟨some "list the rows", none⟩ "list the rows" (by decide)).2.2.2

/-- Claim C6: an uploaded file declared application/json whose bytes
JSON.parse rejects makes the app.js handler respond 500 with the fixed body
"Error processing file" — a total result carrying no parse details — and the
completion endpoint is never called. -/
theorem c6_malformed_json_500 (penv : ParseEnv) (cenv : CallEnv)
    (q : Option String) (name bytes : String)
    (h : penv.jsonReserialize bytes = none) :
    apiChat penv cenv ⟨q, some ⟨name, bytes, "application/json"⟩⟩ =
      ⟨[⟨500, Body.text "Error processing file"⟩], [], 0⟩ := by
  have hn : normalizeCore penv bytes "application/json" = some (.error ()) := by
    have hstep : normalizeCore penv bytes "application/json" =
        some (match penv.jsonReserialize bytes with
          | some s => Except.ok s
          | none => Except.error ()) := rfl
    rw [hstep, h]
  simp [apiChat, hn]

/-- Claim C6 witness: instantiated at a concrete malformed upload. -/
theorem c6_malformed_json_500_witness :
    apiChat penvBadJson cenvOk ⟨some "tell me", some ⟨"cfg.json", "\x7bbroken", "application/json"⟩⟩ =
      ⟨[⟨500, Body.text "Error processing file"⟩], [], 0⟩ :=
  c6_malformed_json_500 penvBadJson cenvOk (some "tell me") "cfg.json" "\x7bbroken" rfl

/-- Claim C7: a csv file whose stream yields no data rows normalizes to the
empty-array serialization "[]", and a spreadsheet whose first sheet yields no
rows likewise normalizes to "[]" — neither is an error. -/
theorem c7_empty_csv_xlsx_empty_array (penv : ParseEnv) (bytes bytes2 : String)
    (h1 : penv.csvParse bytes = .ok []) (h2 : penv.xlsxRows bytes2 = .ok []) :
    normalizeCore penv bytes "text/csv" = some (.ok "[]") ∧
    normalizeCore penv bytes2 xlsxMime = some (.ok "[]") :=
  ⟨normalizeCore_csv_empty penv bytes h1, normalizeCore_xlsx_empty penv bytes2 h2⟩

/-- Claim C7 witness: instantiated at a parse oracle yielding no rows. -/
theorem c7_empty_csv_xlsx_empty_array_witness :
    normalizeCore penvEmptyRows "h1,h2\n" "text/csv" = some (.ok "[]") ∧
    normalizeCore penvEmptyRows "PK" xlsxMime = some (.ok "[]") :=
  c7_empty_csv_xlsx_empty_array penvEmptyRows "h1,h2\n" "PK" rfl rfl

/-- Claim C8 counterexample: in the minimal iteration a successful response
whose first choice is present but has no message object does not get the
fallback string — it lands in the catch and yields a generic 500; and in the
optional-chaining logging iteration a present but empty first choice text is
replaced by the fallback instead of being returned. -/
theorem c8_fallback_edge_cases :
    (processQueryAndRespond_min cenvNoMessage (some "q") none).responses =
      [⟨500, Body.error "Error processing request" (some (.text contentTypeErrorMsg))⟩] ∧
    (processQueryAndRespond_min cenvNoMessage (some "q") none).responses ≠
      [⟨200, Body.success (some "No valid response from the AI.")⟩] ∧
    (processQueryAndRespond_log cenvEmptyText (some "q") none).responses =
      [⟨200, Body.success (some "No response from AI")⟩] ∧
    (processQueryAndRespond_log cenvEmptyText (some "q") none).responses ≠
      [⟨200, Body.success (some "")⟩] :=
  ⟨by decide, by decide, by decide, by decide⟩

/-- Claim C8 (amended): on a successful completion response the
optional-chaining iterations return the first choice message text when the
choice, its message and its text are all present and the text is non-empty,
and substitute "No response from AI" when the chained text is absent or
empty; the length-checking minimal iteration substitutes "No valid response
from the AI." exactly when the choices array is empty, while a present first
choice with an absent message object yields the generic processing-error 500
instead of a fallback. -/
theorem c8_choice_extraction (cenv : CallEnv) (q fc : Option String)
    (data : CompletionData)
    (hs : cenv.completion (chatRequest q fc) = .success data) :
    (∀ c m s, data.choices.head? = some c → c.message = some m → m.content = some s → s ≠ "" →
       (processQueryAndRespond_log cenv q fc).responses = [⟨200, Body.success (some s)⟩]) ∧
    (((data.choices.head?.bind Choice.message).bind ChoiceMessage.content) = none ∨
       ((data.choices.head?.bind Choice.message).bind ChoiceMessage.content) = some "" →
       (processQueryAndRespond_log cenv q fc).responses =
         [⟨200, Body.success (some "No response from AI")⟩]) ∧
    (data.choices = [] →
       (processQueryAndRespond_min cenv q fc).responses =
         [⟨200, Body.success (some "No valid response from the AI.")⟩]) ∧
    (∀ c rest, data.choices = c :: rest → c.message = none →
       (processQueryAndRespond_min cenv q fc).responses =
         [⟨500, Body.error "Error processing request" (some (.text contentTypeErrorMsg))⟩]) := by
  refine ⟨?_, ?_, ?_, ?_⟩
  · intro c m s h1 h2 h3 h4
    simp [processQueryAndRespond_log, hs, h1, h2, h3, jsOrStr, h4]
  · intro h
    rcases h with h | h <;> simp [processQueryAndRespond_log, hs, h, jsOrStr]
  · intro h
    simp [processQueryAndRespond_min, hs, h]
  · intro c rest h1 h2
    simp [processQueryAndRespond_min, hs, h1, h2]

/-- Claim C8 witness: the extraction and the two fallbacks instantiated at
concrete completion data. -/
theorem c8_choice_extraction_witness :
    (processQueryAndRespond_log cenvOk (some "q") none).responses =
      [⟨200, Body.success (some "hello")⟩] ∧
    (processQueryAndRespond_min cenvNoChoices (some "q") none).responses =
      [⟨200, Body.success (some "No valid response from the AI.")⟩] ∧
    (processQueryAndRespond_min cenvNoMessage (some "q") none).responses =
      [⟨500, Body.error "Error processing request" (some (.text contentTypeErrorMsg))⟩] :=
  ⟨(c8_choice_extraction cenvOk (some "q") none ⟨[⟨some ⟨some "hello"⟩⟩], some ⟨42⟩⟩ rfl).1
      ⟨some ⟨some "hello"⟩⟩ ⟨some "hello"⟩ "hello" rfl rfl rfl (by decide),
   (c8_choice_extraction cenvNoChoices (some "q") none ⟨[], some ⟨7⟩⟩ rfl).2.2.1 rfl,
   (c8_choice_extraction cenvNoMessage (some "q") none ⟨[⟨none⟩], some ⟨7⟩⟩ rfl).2.2.2
      ⟨none⟩ [] rfl rfl⟩

/-- Claim C9: in the instrumented iteration (app.js) every successful
response body is the extracted answer followed by the footer
"\n\n---\nResponse time: <integer> ms | Tokens used: <integer>", where the
first integer is the difference of the two Date.now readings around the
outbound call and the second is usage.total_tokens read from the completion
response. -/
theorem c9_footer_format (cenv : CallEnv) (q fc : Option String)
    (data : CompletionData) (u : Usage)
    (hs : cenv.completion (chatRequest q fc) = .success data)
    (hu : data.usage = some u) :
    (processQueryAndRespond cenv q fc).responses =
      [⟨200, Body.success (some
        (jsOrStr ((data.choices.head?.bind Choice.message).bind ChoiceMessage.content)
             "No response from AI"
         ++ "\n\n---\nResponse time: " ++ toString ((cenv.now2 : Int) - (cenv.now1 : Int))
         ++ " ms | Tokens used: " ++ toString u.total_tokens))⟩] := by
  simp [processQueryAndRespond, hs, hu]

/-- Claim C9 witness: a call measured from 100 to 250 with 42 tokens yields
the footer with 150 ms and 42 tokens. -/
theorem c9_footer_format_witness :
    (processQueryAndRespond cenvOk (some "q") none).responses =
      [⟨200, Body.success (some "hello\n\n---\nResponse time: 150 ms | Tokens used: 42")⟩] := by
  have h := c9_footer_format cenvOk (some "q") none
    ⟨[⟨some ⟨some "hello"⟩⟩], some ⟨42⟩⟩ ⟨42⟩ rfl rfl
  exact h.trans (by decide)

/-- Claim C10 (implicit falsiness): a file normalizing to the empty string —
an empty text/plain upload — omits the "File content: " message, so the
completion call receives exactly the messages of a file-less request; an
empty csv or empty spreadsheet normalizes to the truthy "[]" and does get the
second message "File content: []". -/
theorem c10_falsy_file_content (penv : ParseEnv) (cenv : CallEnv) (q : Option String)
    (n1 n2 n3 bytes bytes2 : String)
    (h1 : penv.csvParse bytes = .ok []) (h2 : penv.xlsxRows bytes2 = .ok []) :
    (apiChat penv cenv ⟨q, some ⟨n1, "", "text/plain"⟩⟩).completionCalls =
      (apiChat penv cenv ⟨q, none⟩).completionCalls ∧
    (apiChat penv cenv ⟨q, none⟩).completionCalls =
      [⟨"gpt-3.5-turbo", [ChatMsg.mk "user" (jsOrStr q defaultQueryPrompt)]⟩] ∧
    (apiChat penv cenv ⟨q, some ⟨n2, bytes, "text/csv"⟩⟩).completionCalls =
      [⟨"gpt-3.5-turbo", [ChatMsg.mk "user" (jsOrStr q defaultQueryPrompt),
                          ChatMsg.mk "user" "File content: []"]⟩] ∧
    (apiChat penv cenv ⟨q, some ⟨n3, bytes2, xlsxMime⟩⟩).completionCalls =
      [⟨"gpt-3.5-turbo", [ChatMsg.mk "user" (jsOrStr q defaultQueryPrompt),
                          ChatMsg.mk "user" "File content: []"]⟩] := by
  have hcsv : normalizeCore penv bytes "text/csv" = some (.ok "[]") :=
    normalizeCore_csv_empty penv bytes h1
  have hxlsx : normalizeCore penv bytes2 xlsxMime = some (.ok "[]") :=
    normalizeCore_xlsx_empty penv bytes2 h2
  have hplain : normalizeCore penv "" "text/plain" = some (.ok "") := rfl
  refine ⟨?_, ?_, ?_, ?_⟩
  · show (afterUnlink (processQueryAndRespond cenv q (some ""))).completionCalls =
      (processQueryAndRespond cenv q none).completionCalls
    simp [afterUnlink, processQueryAndRespond_calls, chatRequest, buildMessages]
  · rw [show apiChat penv cenv ⟨q, none⟩ = processQueryAndRespond cenv q none from rfl,
        processQueryAndRespond_calls]
    simp [chatRequest, buildMessages]
  · simp [apiChat, hcsv, afterUnlink, processQueryAndRespond_calls, chatRequest, buildMessages]
  · simp [apiChat, hxlsx, afterUnlink, processQueryAndRespond_calls, chatRequest, buildMessages]

/-- Claim C10 witness: instantiated at oracles yielding no rows. -/
theorem c10_falsy_file_content_witness :
    (apiChat penvEmptyRows cenvOk ⟨some "go", some ⟨"a.csv", "", "text/csv"⟩⟩).completionCalls =
      [⟨"gpt-3.5-turbo", [ChatMsg.mk "user" "go", ChatMsg.mk "user" "File content: []"]⟩] := by
  have h := (c10_falsy_file_content penvEmptyRows cenvOk (some "go")
    "t.txt" "a.csv" "x.xlsx" "" "" rfl rfl).2.2.1
  exact h.trans (by decide)

end VoicebotV2
